import Mathlib

/-!
Shallow embedding of the event filtering and ranking pipeline of
Story Time Locator (`app.py`), together with theorems settling the
claims about its specification.

Conventions of the embedding:
* Python dictionaries holding event records become the `Event` structure;
  a missing key is `none`, `dict.get(k, default)` becomes `Option.getD`.
* `datetime.strptime` with the formats used in the source is modelled
  character-by-character after CPython's `_strptime` regexes
  (`%Y` = exactly four digits, `%m`/`%d`/`%H`/`%M`/`%S` = the one-or-two
  digit alternations of `TimeRE`, a whitespace in the format = one or
  more whitespace characters), followed by the range validation that the
  `datetime` constructor performs.
* Calendar dates are represented by their rata-die day number (the
  days-from-civil algorithm); `datetime.date` comparison and
  `timedelta(days = n)` become `Nat` comparison and addition.
* Times of day are represented as seconds since midnight.
* `duration_hours` (a Python float obtained as an exact integer number of
  seconds divided by 3600) is represented as a rational number; for the
  quantities occurring here (|seconds| ≤ 86400) the float and rational
  comparisons against 6 agree, and the concrete values asserted by the
  spec (0.75) are exactly representable.
* Python loops of the shape "for e in events: if p(e): filtered.append(e)"
  are `List.filter`, and `sorted` (a stable sort) is `List.insertionSort`.
-/

/-! ### Character and string utilities -/

/-- The whitespace class used both by the regex `\s` and by `strptime`
for a whitespace character in the format (ASCII fragment, which covers
the event data domain). -/
def isPySpace (c : Char) : Bool :=
  c = ' ' || c = '\t' || c = '\n' || c = '\r' || c = Char.ofNat 11 || c = Char.ofNat 12

/-- `str.lower()` on a string, as a character list (ASCII fragment). -/
def lowerChars (s : String) : List Char :=
  s.data.map Char.toLower

/-- Does `hay` start with `needle`? -/
def leadsWith : List Char → List Char → Bool
  | [], _ => true
  | _ :: _, [] => false
  | n :: ns, h :: hs => n = h && leadsWith ns hs

/-- Python's substring test `needle in hay`. -/
def containsSub (needle hay : List Char) : Bool :=
  match hay with
  | [] => leadsWith needle []
  | _ :: hs => leadsWith needle hay || containsSub needle hs

/-- Numeric value of a decimal digit character. -/
def digitVal (c : Char) : Nat := c.toNat - 48

/-- Helper for `takeDigits`: consume a maximal digit run into an
accumulated value. -/
def takeDigitsAux (acc : Nat) : List Char → Nat × List Char
  | [] => (acc, [])
  | c :: rest =>
    if c.isDigit then takeDigitsAux (acc * 10 + digitVal c) rest else (acc, c :: rest)

/-- Greedy `\d+`: at least one digit, maximal run, returning the value
and the rest of the input. -/
def takeDigits : List Char → Option (Nat × List Char)
  | [] => none
  | c :: rest => if c.isDigit then some (takeDigitsAux (digitVal c) rest) else none

/-- Greedy `\s*`. -/
def skipSpaces (l : List Char) : List Char :=
  l.dropWhile isPySpace

/-- Python's `int(s)` on a string: optional surrounding whitespace, an
optional sign, then a non-empty digit run (digit-group underscores and
non-ASCII digits, which never occur in this data, are not modelled). -/
def pyInt : List Char → Option Int :=
  fun l =>
    let l1 := (skipSpaces l).reverse
    let l2 := (skipSpaces l1).reverse
    match l2 with
    | '+' :: rest => digitsToInt rest
    | '-' :: rest => (digitsToInt rest).map (fun n => -n)
    | rest => digitsToInt rest
where
  digitsToInt (l : List Char) : Option Int :=
    match takeDigits l with
    | some (v, []) => some (v : Int)
    | _ => none

/-- `int(s)` on a Lean string. -/
def pyIntStr (s : String) : Option Int := pyInt s.data

/-! ### `strptime` field matchers

CPython's `_strptime` compiles each directive to a regex alternation that
prefers a valid two-digit form and otherwise falls back to one digit.  In
the formats used by the source every numeric directive is followed by a
non-digit literal (`-`, `:`, whitespace) or the end of the input, so the
two-digit-first commitment below is equivalent to the regex with
backtracking: whenever the two-digit branch matches, the one-digit branch
would leave a digit where a non-digit is required. -/

/-- Match one numeric `strptime` directive: a valid two-digit form
(`valid2`), else a valid one-digit form (`valid1`). -/
def twoOrOne (valid2 : Char → Char → Bool) (valid1 : Char → Bool) :
    List Char → Option (Nat × List Char)
  | a :: b :: rest =>
    if valid2 a b then some (digitVal a * 10 + digitVal b, rest)
    else if valid1 a then some (digitVal a, b :: rest)
    else none
  | [a] => if valid1 a then some (digitVal a, []) else none
  | [] => none

/-- `%m`: `1[0-2]|0[1-9]|[1-9]`. -/
def matchMonth : List Char → Option (Nat × List Char) :=
  twoOrOne
    (fun a b => (a = '1' && ('0' ≤ b && b ≤ '2')) || (a = '0' && ('1' ≤ b && b ≤ '9')))
    (fun a => '1' ≤ a && a ≤ '9')

/-- `%d`: `3[01]|[12]\d|0[1-9]|[1-9]`. -/
def matchDay : List Char → Option (Nat × List Char) :=
  twoOrOne
    (fun a b =>
      (a = '3' && (b = '0' || b = '1')) ||
      ((a = '1' || a = '2') && b.isDigit) ||
      (a = '0' && ('1' ≤ b && b ≤ '9')))
    (fun a => '1' ≤ a && a ≤ '9')

/-- `%H`: `2[0-3]|[0-1]\d|\d`. -/
def matchHour : List Char → Option (Nat × List Char) :=
  twoOrOne
    (fun a b => (a = '2' && ('0' ≤ b && b ≤ '3')) || ((a = '0' || a = '1') && b.isDigit))
    (fun a => a.isDigit)

/-- `%M`: `[0-5]\d|\d`. -/
def matchMinute : List Char → Option (Nat × List Char) :=
  twoOrOne
    (fun a b => ('0' ≤ a && a ≤ '5') && b.isDigit)
    (fun a => a.isDigit)

/-- `%S`: `6[0-1]|[0-5]\d|\d` (the regex admits leap seconds 60 and 61,
which the `datetime` constructor then rejects). -/
def matchSecond : List Char → Option (Nat × List Char) :=
  twoOrOne
    (fun a b => (a = '6' && (b = '0' || b = '1')) || (('0' ≤ a && a ≤ '5') && b.isDigit))
    (fun a => a.isDigit)

/-! ### Calendar arithmetic -/

/-- Gregorian leap year. -/
def isLeap (y : Nat) : Bool :=
  (y % 4 = 0 && y % 100 ≠ 0) || y % 400 = 0

/-- Number of days in a month, as validated by the `datetime` constructor. -/
def daysInMonth (y m : Nat) : Nat :=
  if m = 2 then (if isLeap y then 29 else 28)
  else if m = 4 || m = 6 || m = 9 || m = 11 then 30
  else 31

/-- Rata-die day number of a civil date (days-from-civil algorithm);
strictly monotone in the calendar order, so `datetime.date` comparison
becomes `Nat` comparison and `timedelta(days = n)` becomes `+ n`. -/
def rataDie (y m d : Nat) : Nat :=
  let yp := if m ≤ 2 then y - 1 else y
  let era := yp / 400
  let yoe := yp % 400
  let mp := if m > 2 then m - 3 else m + 9
  let doy := (153 * mp + 2) / 5 + (d - 1)
  let doe := yoe * 365 + yoe / 4 - yoe / 100 + doy
  era * 146097 + doe

/-! ### The `strptime` calls of the source -/

/-- `%Y-%m-%d` on a prefix of the input: four digits, `-`, month, `-`,
day, with the `datetime` range validation (year ≥ 1, day within month).
Returns the rata-die day number and the unconsumed rest. -/
def parseDatePrefix (l : List Char) : Option (Nat × List Char) :=
  match l with
  | c1 :: c2 :: c3 :: c4 :: '-' :: rest =>
    if c1.isDigit && c2.isDigit && c3.isDigit && c4.isDigit then
      let y := ((digitVal c1 * 10 + digitVal c2) * 10 + digitVal c3) * 10 + digitVal c4
      match matchMonth rest with
      | some (m, '-' :: rest2) =>
        match matchDay rest2 with
        | some (d, rest3) =>
          if 1 ≤ y && d ≤ daysInMonth y m then some (rataDie y m d, rest3) else none
        | none => none
      | _ => none
    else none
  | _ => none

/-- `datetime.strptime(s, '%Y-%m-%d').date()`, as a rata-die day number;
`none` models the `ValueError` (including "unconverted data remains"). -/
def parseDate (s : String) : Option Nat :=
  match parseDatePrefix s.data with
  | some (d, []) => some d
  | _ => none

/-- `%H:%M:%S` on the whole input, with the `datetime` validation that
the second is at most 59.  Returns (hour, minute, second). -/
def parseTimeChars (l : List Char) : Option (Nat × Nat × Nat) :=
  match matchHour l with
  | some (h, ':' :: rest) =>
    match matchMinute rest with
    | some (m, ':' :: rest2) =>
      match matchSecond rest2 with
      | some (s, []) => if s ≤ 59 then some (h, m, s) else none
      | _ => none
    | _ => none
  | _ => none

/-- `datetime.strptime(s, '%H:%M:%S')`, as (hour, minute, second). -/
def parseTimeHMS (s : String) : Option (Nat × Nat × Nat) :=
  parseTimeChars s.data

/-- Seconds since midnight of an (hour, minute, second) triple. -/
def hmsSeconds (t : Nat × Nat × Nat) : Nat :=
  t.1 * 3600 + t.2.1 * 60 + t.2.2

/-- `datetime.strptime(dateStr ++ " " ++ timeStr, '%Y-%m-%d %H:%M:%S')`,
encoded as `ratadie * 86400 + seconds` (an order isomorphism onto the
parsed `datetime` values).  The single space of the format matches one
or more whitespace characters of the joined string. -/
def parseDateTimeKey (dateStr timeStr : String) : Option Nat :=
  match parseDatePrefix (dateStr.data ++ ' ' :: timeStr.data) with
  | some (d, c :: rest) =>
    if isPySpace c then
      match parseTimeChars (skipSpaces rest) with
      | some t => some (d * 86400 + hmsSeconds t)
      | none => none
    else none
  | _ => none

/-! ### Age-range regex models

The three patterns of `extract_age_range_from_text` and the
`(\d+)\s*-\s*(\d+)` search of `filter_by_age` are deterministic for the
same reason as the `strptime` directives: every greedy piece (`\d+`,
`\s*`, `s?`) is followed by a piece that cannot match a character the
greedy piece would have to give back, so no backtracking alternative can
succeed where the greedy commitment fails.  `re.search` semantics is the
leftmost starting position at which the pattern matches. -/

/-- `\s*(?:-|to)\s*` between the two numbers of patterns 1 and 2. -/
def afterSep (l : List Char) : Option (List Char) :=
  match skipSpaces l with
  | '-' :: rest => some (skipSpaces rest)
  | 't' :: 'o' :: rest => some (skipSpaces rest)
  | _ => none

/-- `(\d+)\s*(?:-|to)\s*(\d+)` at the current position. -/
def numPair (l : List Char) : Option (Nat × Nat) :=
  match takeDigits l with
  | some (d1, rest) =>
    match afterSep rest with
    | some rest2 =>
      match takeDigits rest2 with
      | some (d2, _) => some (d1, d2)
      | none => none
    | none => none
  | none => none

/-- After a matched `age`: `s?\s+(\d+)\s*(?:-|to)\s*(\d+)`. -/
def agesTail (rest : List Char) : Option (Nat × Nat) :=
  let rest1 := match rest with | 's' :: r => r | _ => rest
  match rest1 with
  | c :: _ => if isPySpace c then numPair (skipSpaces rest1) else none
  | [] => none

/-- Pattern 1, `ages?\s+(\d+)\s*(?:-|to)\s*(\d+)`, at the current position. -/
def pattern1At (l : List Char) : Option (Nat × Nat) :=
  match l with
  | 'a' :: 'g' :: 'e' :: rest => agesTail rest
  | _ => none

/-- Pattern 2, `for\s+ages?\s+(\d+)\s*(?:-|to)\s*(\d+)`, at the current
position. -/
def pattern2At (l : List Char) : Option (Nat × Nat) :=
  match l with
  | 'f' :: 'o' :: 'r' :: rest =>
    match rest with
    | c :: _ =>
      if isPySpace c then
        match skipSpaces rest with
        | 'a' :: 'g' :: 'e' :: rest2 => agesTail rest2
        | _ => none
      else none
    | [] => none
  | _ => none

/-- Pattern 3, `(\d+)\s*-\s*(\d+)\s*years?\s+old`, at the current position. -/
def pattern3At (l : List Char) : Option (Nat × Nat) :=
  match takeDigits l with
  | some (d1, rest) =>
    match skipSpaces rest with
    | '-' :: rest2 =>
      match takeDigits (skipSpaces rest2) with
      | some (d2, rest3) =>
        match skipSpaces rest3 with
        | 'y' :: 'e' :: 'a' :: 'r' :: rest4 =>
          let rest5 := match rest4 with | 's' :: r => r | _ => rest4
          match rest5 with
          | c :: _ =>
            if isPySpace c then
              match skipSpaces rest5 with
              | 'o' :: 'l' :: 'd' :: _ => some (d1, d2)
              | _ => none
            else none
          | [] => none
        | _ => none
      | none => none
    | _ => none
  | none => none

/-- `re.search`: try the pattern at each starting position, left to right. -/
def searchPat (pat : List Char → Option (Nat × Nat)) : List Char → Option (Nat × Nat)
  | [] => none
  | c :: rest =>
    match pat (c :: rest) with
    | some r => some r
    | none => searchPat pat rest

/-- `(\d+)\s*-\s*(\d+)` at the current position (the `audience` fallback
pattern of `filter_by_age`). -/
def dashAt (l : List Char) : Option (Nat × Nat) :=
  match takeDigits l with
  | some (d1, rest) =>
    match skipSpaces rest with
    | '-' :: rest2 =>
      match takeDigits (skipSpaces rest2) with
      | some (d2, _) => some (d1, d2)
      | none => none
    | _ => none
  | none => none

/-- `re.search(r'(\d+)\s*-\s*(\d+)', audience)` with integer groups. -/
def dashSearch (l : List Char) : Option (Nat × Nat) :=
  searchPat dashAt l

/-- `extract_age_range_from_text`: try the three patterns in order on the
lower-cased text; empty text has no range. -/
def extract_age_range_from_text (text : String) : Option (Nat × Nat) :=
  if text = "" then none
  else
    let l := lowerChars text
    match searchPat pattern1At l with
    | some r => some r
    | none =>
      match searchPat pattern2At l with
      | some r => some r
      | none => searchPat pattern3At l

/-! ### Data model -/

/-- An event record: a Python dict where a missing key is `none`.  The
last three fields are the per-query derived fields written by
`add_duration_info`; `formatted_end_time` distinguishes an absent key
(`none`) from an explicit `null` (`some none`).  `duration_hours` (an
exact number of seconds divided by 3600) is represented as a rational. -/
structure Event where
  title : Option String := none
  date : Option String := none
  start_time : Option String := none
  end_time : Option String := none
  day_of_week : Option String := none
  audience : Option String := none
  description : Option String := none
  venue_type : Option String := none
  categories : Option (List String) := none
  city : Option String := none
  duration_hours : Option ℚ := none
  is_all_day : Option Bool := none
  formatted_end_time : Option (Option String) := none
deriving DecidableEq

/-- The query object read from the POST body, with the defaults of
`search` for absent fields. -/
structure Query where
  city : String := "both"
  kids_ages : String := ""
  days : List String := []
  date_range : String := "all"
  time_of_day : List String := []
  venue_type : String := "all"
  event_type : String := "all"
deriving DecidableEq

/-! ### Age filter (`check_age_overlap`, `filter_by_age`) -/

/-- `check_age_overlap`: closed-interval overlap test. -/
def check_age_overlap (user_min user_max event_min event_max : Int) : Bool :=
  !(decide (user_max < event_min) || decide (user_min > event_max))

/-- Python's `s.split('-')`: split on every occurrence of the dash. -/
def splitOnDash : List Char → List (List Char)
  | [] => [[]]
  | c :: rest =>
    if c = '-' then [] :: splitOnDash rest
    else
      match splitOnDash rest with
      | h :: t => (c :: h) :: t
      | [] => [[c]]

/-- The `try` block at the top of `filter_by_age`: parse the caller's
age input; `none` models the caught `ValueError` (from `int` or from
unpacking a split with other than two parts). -/
def parse_age_input (age_input : String) : Option (Int × Int) :=
  if age_input.data.contains '-' then
    match splitOnDash age_input.data with
    | [a, b] =>
      match pyInt a, pyInt b with
      | some x, some y => some (x, y)
      | _, _ => none
    | _ => none
  else
    match pyInt age_input.data with
    | some v => some (v, v)
    | none => none

/-- The per-record decision of the `filter_by_age` loop body.  Note two
structural points taken directly from the source: the "all ages" check
on `audience` runs before the description extraction, and when the
numeric `audience` pattern is found but does not overlap, control falls
through to the keyword heuristics (the `continue` is inside the overlap
branch only).  The keyword chain keeps Python's operator precedence:
`'baby' in audience or ('infant' in audience and user_max >= 0 and
user_min <= 2)`. -/
def keepAge (user_min user_max : Int) (e : Event) : Bool :=
  let audience := lowerChars (e.audience.getD "")
  let description := e.description.getD ""
  if containsSub "all ages".data audience then true
  else
    match extract_age_range_from_text description with
    | some (event_min, event_max) =>
      check_age_overlap user_min user_max event_min event_max
    | none =>
      let dashKeep :=
        match dashSearch audience with
        | some (event_min, event_max) =>
          check_age_overlap user_min user_max event_min event_max
        | none => false
      if dashKeep then true
      else if containsSub "toddler".data audience && decide (user_max ≥ 1) &&
          decide (user_min ≤ 3) then true
      else if containsSub "baby".data audience ||
          (containsSub "infant".data audience && decide (user_max ≥ 0) &&
            decide (user_min ≤ 2)) then true
      else if containsSub "preschool".data audience && decide (user_max ≥ 3) &&
          decide (user_min ≤ 5) then true
      else false

/-- `filter_by_age`: on an unparsable age input return all events,
otherwise keep the records accepted by `keepAge` (the append loop is a
`List.filter`). -/
def filter_by_age (events : List Event) (age_input : String) : List Event :=
  match parse_age_input age_input with
  | none => events
  | some (user_min, user_max) => events.filter (keepAge user_min user_max)

/-! ### Temporal validity (`filter_upcoming_events`) -/

/-- Keep a record iff its date parses to today or later, or fails to
parse (fail-open).  `today` is the rata-die number of
`datetime.now().date()`. -/
def keepUpcoming (today : Nat) (e : Event) : Bool :=
  match parseDate (e.date.getD "") with
  | some d => decide (today ≤ d)
  | none => true

/-- `filter_upcoming_events`. -/
def filter_upcoming_events (today : Nat) (events : List Event) : List Event :=
  events.filter (keepUpcoming today)

/-! ### Date window (`filter_by_date_range`) -/

/-- The `end_date` computation: `none` for `all` or an unrecognized
window name. -/
def endDateOf (today : Nat) (date_range : String) : Option Nat :=
  if date_range = "week" then some (today + 7)
  else if date_range = "2weeks" then some (today + 14)
  else if date_range = "month" then some (today + 30)
  else none

/-- Keep a record iff its date parses into `[today, end_date]`, or fails
to parse (fail-open). -/
def keepInRange (today end_date : Nat) (e : Event) : Bool :=
  match parseDate (e.date.getD "") with
  | some d => decide (today ≤ d) && decide (d ≤ end_date)
  | none => true

/-- `filter_by_date_range`. -/
def filter_by_date_range (today : Nat) (events : List Event) (date_range : String) :
    List Event :=
  match endDateOf today date_range with
  | none => events
  | some end_date => events.filter (keepInRange today end_date)

/-! ### Day-of-week filter (`filter_by_days`) -/

/-- Case-folded membership of the record's day in the selected days. -/
def keepDays (selected_days : List String) (e : Event) : Bool :=
  (selected_days.map lowerChars).contains (lowerChars (e.day_of_week.getD ""))

/-- `filter_by_days` (returns the input unchanged for an empty selection). -/
def filter_by_days (events : List Event) (selected_days : List String) : List Event :=
  if selected_days = [] then events else events.filter (keepDays selected_days)

/-! ### Time-of-day filter (`filter_by_time_of_day`) -/

/-- The per-record bucket test: `int(start_time.split(':')[0])`, kept on
a parse failure (fail-open), otherwise kept iff a requested bucket
matches. -/
def keepTime (times : List String) (e : Event) : Bool :=
  let start_time := e.start_time.getD "00:00:00"
  match pyInt (start_time.data.takeWhile (fun c => !(c = ':'))) with
  | none => true
  | some hour =>
    (times.contains "morning" && decide (hour < 12)) ||
    (times.contains "afternoon" && (decide (12 ≤ hour) && decide (hour < 17))) ||
    (times.contains "evening" && decide (hour ≥ 17))

/-- `filter_by_time_of_day`. -/
def filter_by_time_of_day (events : List Event) (times : List String) : List Event :=
  if times = [] then events else events.filter (keepTime times)

/-! ### Venue filter (`filter_by_venue_type`) -/

/-- Exact match against the venue type, defaulted to `library`. -/
def keepVenue (venue_type : String) (e : Event) : Bool :=
  e.venue_type.getD "library" == venue_type

/-- `filter_by_venue_type`. -/
def filter_by_venue_type (events : List Event) (venue_type : String) : List Event :=
  if venue_type = "all" then events else events.filter (keepVenue venue_type)

/-! ### Category filter (`filter_by_event_type`) -/

/-- The fixed keyword table `type_keywords`. -/
def type_keywords (event_type : String) : List String :=
  if event_type = "storytime" then ["Storytime Events", "storytime", "story time"]
  else if event_type = "arts" then ["Arts and Crafts", "arts", "crafts"]
  else if event_type = "steam" then ["S.T.E.A.M", "STEM", "steam", "stem"]
  else if event_type = "music" then ["Music and Dance", "music", "dance"]
  else []

/-- The per-record keyword match: any keyword substring-matches a
category tag, the title, or the description (case-insensitively). -/
def keepType (event_type : String) (e : Event) : Bool :=
  (type_keywords event_type).any fun kw =>
    let kl := lowerChars kw
    ((e.categories.getD []).any fun cat => containsSub kl (lowerChars cat)) ||
    containsSub kl (lowerChars (e.title.getD "")) ||
    containsSub kl (lowerChars (e.description.getD ""))

/-- `filter_by_event_type` (identity for `all` and for an unknown type,
whose keyword list is empty). -/
def filter_by_event_type (events : List Event) (event_type : String) : List Event :=
  if event_type = "all" then events
  else if type_keywords event_type = [] then events
  else events.filter (keepType event_type)

/-! ### Temporal Annotator (`add_duration_info`) -/

/-- Two-digit zero-padded minute, as in Python's formatted string. -/
def pad2 (n : Nat) : String :=
  if n < 10 then "0" ++ toString n else toString n

/-- The 12-hour rendering of an (hour, minute) pair, exactly as computed
in `add_duration_info`. -/
def format12 (hour minute : Nat) : String :=
  let period := if hour < 12 then "AM" else "PM"
  let display_hour := if hour ≤ 12 then hour else hour - 12
  let display_hour := if display_hour = 0 then 12 else display_hour
  toString display_hour ++ ":" ++ pad2 minute ++ " " ++ period

/-- The derived values computed by the `add_duration_info` loop body:
(duration_hours, is_all_day, formatted_end_time).  An absent or empty
`end_time`, or a time that fails to parse (the caught `ValueError`),
gives the defaults `(0, false, null)`; the function never raises. -/
def durTriple (e : Event) : ℚ × Bool × Option String :=
  let start_time := e.start_time.getD "00:00:00"
  let end_time := e.end_time.getD ""
  if end_time ≠ "" then
    match parseTimeHMS start_time, parseTimeHMS end_time with
    | some st, some et =>
      let duration_hours : ℚ := ((hmsSeconds et : ℚ) - (hmsSeconds st : ℚ)) / 3600
      (duration_hours, decide (duration_hours ≥ 6), some (format12 et.1 et.2.1))
    | _, _ => (0, false, none)
  else (0, false, none)

/-- Write the three derived keys into a record. -/
def setDerived (e : Event) (t : ℚ × Bool × Option String) : Event :=
  { e with
    duration_hours := some t.1
    is_all_day := some t.2.1
    formatted_end_time := some t.2.2 }

/-- One iteration of the `add_duration_info` loop on a record. -/
def annotate (e : Event) : Event :=
  setDerived e (durTriple e)

/-- `add_duration_info` as a value-level function on the list it
returns.  (The same assignment also mutates the dict objects in place;
that aliasing effect on the shared collections is modelled separately by
the `...AfterSearch` functions below.) -/
def add_duration_info (events : List Event) : List Event :=
  events.map annotate

/-! ### Sorter (`sort_by_date`) -/

/-- The sort key of `get_sort_key`: the parsed combined date-time, with
the defaults `'9999-12-31'` for a missing date and `'00:00:00'` for a
missing start time.  `none` models the `datetime.max` fallback for a
parse failure. -/
def sortKeyOpt (e : Event) : Option Nat :=
  parseDateTimeKey (e.date.getD "9999-12-31") (e.start_time.getD "00:00:00")

/-- Comparison of sort keys; `none` (`datetime.max`) is strictly above
every parsed key, because a parsed `datetime` has microsecond 0 and
`datetime.max` has microsecond 999999. -/
def keyLe (a b : Event) : Bool :=
  match sortKeyOpt a, sortKeyOpt b with
  | _, none => true
  | none, some _ => false
  | some x, some y => decide (x ≤ y)

/-- `keyLe` as a relation, for `List.insertionSort`. -/
def keyRel (a b : Event) : Prop := keyLe a b = true

instance : DecidableRel keyRel := fun a b =>
  inferInstanceAs (Decidable (keyLe a b = true))

instance : IsTotal Event keyRel where
  total a b := by
    unfold keyRel keyLe
    rcases sortKeyOpt a with _ | x <;> rcases sortKeyOpt b with _ | y <;> simp
    omega

instance : IsTrans Event keyRel where
  trans a b c := by
    unfold keyRel keyLe
    rcases sortKeyOpt a with _ | x <;> rcases sortKeyOpt b with _ | y <;>
      rcases sortKeyOpt c with _ | z <;> simp
    omega

/-- `sort_by_date`: Python's `sorted` is a stable sort by the key, which
agrees with insertion sort on the same total preorder. -/
def sort_by_date (events : List Event) : List Event :=
  List.insertionSort keyRel events

/-! ### Query Orchestrator (`search`) -/

/-- The city-tag comparison used for bookstore records:
`event.get('city', '').lower() == 'jersey city'` (the literal is
already lower-case). -/
def cityMatches (e : Event) (cityName : String) : Bool :=
  lowerChars (e.city.getD "") == cityName.data

/-- The dict copy with an overwritten city tag,
`\x7b**event, 'city': c\x7d` (a fresh dict, so tagging never mutates the
source records). -/
def setCity (e : Event) (c : String) : Event :=
  { e with city := some c }

/-- The city-scoped union built at the top of `search`.  Any city string
other than the two recognized ones takes the `both` branch. -/
def collect (q : Query) (jc hob book : List Event) : List Event :=
  if q.city = "jersey_city" then
    jc ++ book.filter (fun e => cityMatches e "jersey city")
  else if q.city = "hoboken" then
    hob ++ book.filter (fun e => cityMatches e "hoboken")
  else
    jc.map (fun e => setCity e "Jersey City") ++
      hob.map (fun e => setCity e "Hoboken") ++ book

/-- The conditional filter chain of `search`: each stage is applied only
when its query parameter was supplied (Python truthiness of the
parameter). -/
def pipelineFilters (today : Nat) (q : Query) (events : List Event) : List Event :=
  let e1 := filter_upcoming_events today events
  let e2 := if q.date_range ≠ "all" then filter_by_date_range today e1 q.date_range else e1
  let e3 := if q.kids_ages ≠ "" then filter_by_age e2 q.kids_ages else e2
  let e4 := if q.days ≠ [] then filter_by_days e3 q.days else e3
  let e5 := if q.time_of_day ≠ [] then filter_by_time_of_day e4 q.time_of_day else e4
  let e6 := if q.venue_type ≠ "all" then filter_by_venue_type e5 q.venue_type else e5
  let e7 := if q.event_type ≠ "all" then filter_by_event_type e6 q.event_type else e6
  e7

/-- The result list of one `/search` call (the `results` field of the
response; `count` is its length). -/
def search_results (today : Nat) (q : Query) (jc hob book : List Event) : List Event :=
  sort_by_date (add_duration_info (pipelineFilters today q (collect q jc hob book)))

/-- The date-window stage as a per-record predicate (`true` for the
identity cases of `filter_by_date_range`). -/
def keepDateRangeP (today : Nat) (date_range : String) (e : Event) : Bool :=
  match endDateOf today date_range with
  | none => true
  | some end_date => keepInRange today end_date e

/-- The age stage as a per-record predicate (`true` when the caller's
age input does not parse). -/
def keepAgeP (age_input : String) (e : Event) : Bool :=
  match parse_age_input age_input with
  | none => true
  | some (user_min, user_max) => keepAge user_min user_max e

/-- The day stage as a per-record predicate. -/
def keepDaysP (selected_days : List String) (e : Event) : Bool :=
  if selected_days = [] then true else keepDays selected_days e

/-- The time-of-day stage as a per-record predicate. -/
def keepTimeP (times : List String) (e : Event) : Bool :=
  if times = [] then true else keepTime times e

/-- The venue stage as a per-record predicate. -/
def keepVenueP (venue_type : String) (e : Event) : Bool :=
  if venue_type = "all" then true else keepVenue venue_type e

/-- The category stage as a per-record predicate. -/
def keepTypeP (event_type : String) (e : Event) : Bool :=
  if event_type = "all" then true
  else if type_keywords event_type = [] then true
  else keepType event_type e

/-- The per-record survival predicate of the whole filter chain; proved
below (`pipelineFilters_eq_filter`) to describe `pipelineFilters`
exactly. -/
def survives (today : Nat) (q : Query) (e : Event) : Bool :=
  keepUpcoming today e &&
  (if q.date_range ≠ "all" then keepDateRangeP today q.date_range e else true) &&
  (if q.kids_ages ≠ "" then keepAgeP q.kids_ages e else true) &&
  (if q.days ≠ [] then keepDaysP q.days e else true) &&
  (if q.time_of_day ≠ [] then keepTimeP q.time_of_day e else true) &&
  (if q.venue_type ≠ "all" then keepVenueP q.venue_type e else true) &&
  (if q.event_type ≠ "all" then keepTypeP q.event_type e else true)

/-! ### The aliasing effect of one search on the shared collections

`search` copies the *lists* (`.copy()`, list displays) but not the dict
objects: for a single-city query the events of the native collection,
and the bookstore events whose city tag matches, enter the working list
as the very dict objects held by the shared collections, and
`add_duration_info` then writes the three derived keys into every dict
that survived the filter chain.  For a `both` query the two library
collections are copied dict-by-dict (`\x7b**event, 'city': ...\x7d`)
but the bookstore records are passed through as-is.  The functions below
give the value of each shared collection after one completed search. -/

/-- Mutate-in-place image of one record: annotated iff it survived the
filter chain (and therefore reached `add_duration_info`). -/
def mutIfSurvives (today : Nat) (q : Query) (e : Event) : Event :=
  if survives today q e then annotate e else e

/-- The `jersey_city_events` collection after one search. -/
def jcAfterSearch (today : Nat) (q : Query) (jc : List Event) : List Event :=
  if q.city = "jersey_city" then jc.map (mutIfSurvives today q) else jc

/-- The `hoboken_events` collection after one search. -/
def hobAfterSearch (today : Nat) (q : Query) (hob : List Event) : List Event :=
  if q.city = "hoboken" then hob.map (mutIfSurvives today q) else hob

/-- Mutate-in-place image of a bookstore record under a single-city
query: annotated iff its city tag matched (so it entered the working
list) and it survived the filter chain. -/
def bookMut (today : Nat) (q : Query) (cityName : String) (e : Event) : Event :=
  if cityMatches e cityName && survives today q e then annotate e else e

/-- The `bookstore_events` collection after one search. -/
def bookAfterSearch (today : Nat) (q : Query) (book : List Event) : List Event :=
  if q.city = "jersey_city" then book.map (bookMut today q "jersey city")
  else if q.city = "hoboken" then book.map (bookMut today q "hoboken")
  else book.map (mutIfSurvives today q)

/-! ### Derived definitions and sample data used by the claim theorems -/

/-- The query with one field replaced, for comparing two runs that agree
on every other parameter. -/
def setRange (q : Query) (r : String) : Query :=
  { q with date_range := r }

/-- A record carrying no age signal at all: no "all ages" audience, no
extractable description interval, no numeric dash pattern in the
audience, and none of the four fallback keywords. -/
def noAgeSignal (e : Event) : Bool :=
  !(containsSub "all ages".data (lowerChars (e.audience.getD ""))) &&
  (extract_age_range_from_text (e.description.getD "")).isNone &&
  (dashSearch (lowerChars (e.audience.getD ""))).isNone &&
  !(containsSub "toddler".data (lowerChars (e.audience.getD ""))) &&
  !(containsSub "baby".data (lowerChars (e.audience.getD ""))) &&
  !(containsSub "infant".data (lowerChars (e.audience.getD ""))) &&
  !(containsSub "preschool".data (lowerChars (e.audience.getD "")))

/-- A record with every field absent. -/
def emptyEvent : Event := {}

/-- An "all ages" audience together with an extractable description
interval. -/
def allAgesDescEvent : Event :=
  { audience := some "All Ages", description := some "ages 3-5" }

/-- A description interval with no audience field at all. -/
def agesDescEvent : Event := { description := some "ages 3-5" }

/-- An audience hitting only the `baby` keyword. -/
def babyEvent : Event := { audience := some "baby" }

/-- An audience with a numeric dash pattern and the `toddler` keyword. -/
def toddlerDashEvent : Event := { audience := some "toddler 6-11" }

/-- An audience with no age information of any kind. -/
def adultsEvent : Event := { audience := some "adults welcome" }

/-- A parsable record dated on the sorter's default date. -/
def lateDateEvent : Event :=
  { date := some "9999-12-31", start_time := some "10:00:00" }

/-- The concrete scenario of the Temporal Annotator specification. -/
def morningSlotEvent : Event :=
  { start_time := some "09:30:00", end_time := some "10:15:00" }

/-- A single-city query with no other filters. -/
def jcQuery : Query := { city := "jersey_city" }

/-- The default query (city `both`, no filters). -/
def bothQuery : Query := {}

/-! ### Supporting lemmas: the filter chain is one filter -/

theorem filter_by_date_range_eq_filter (today : Nat) (l : List Event) (dr : String) :
    filter_by_date_range today l dr = l.filter (keepDateRangeP today dr) := by
  unfold filter_by_date_range keepDateRangeP
  cases h : endDateOf today dr <;> simp [h]

theorem filter_by_age_eq_filter (l : List Event) (s : String) :
    filter_by_age l s = l.filter (keepAgeP s) := by
  unfold filter_by_age keepAgeP
  cases h : parse_age_input s <;> simp [h]

theorem filter_by_days_eq_filter (l : List Event) (sel : List String) :
    filter_by_days l sel = l.filter (keepDaysP sel) := by
  unfold filter_by_days keepDaysP
  by_cases h : sel = [] <;> simp [h]

theorem filter_by_time_of_day_eq_filter (l : List Event) (ts : List String) :
    filter_by_time_of_day l ts = l.filter (keepTimeP ts) := by
  unfold filter_by_time_of_day keepTimeP
  by_cases h : ts = [] <;> simp [h]

theorem filter_by_venue_type_eq_filter (l : List Event) (vt : String) :
    filter_by_venue_type l vt = l.filter (keepVenueP vt) := by
  unfold filter_by_venue_type keepVenueP
  by_cases h : vt = "all" <;> simp [h]

theorem filter_by_event_type_eq_filter (l : List Event) (et : String) :
    filter_by_event_type l et = l.filter (keepTypeP et) := by
  unfold filter_by_event_type keepTypeP
  by_cases h : et = "all" <;> by_cases h2 : type_keywords et = [] <;> simp [h, h2]

theorem ite_filter {α : Type} (c : Prop) [Decidable c] (p : α → Bool) (l : List α) :
    (if c then l.filter p else l) = l.filter (fun a => if c then p a else true) := by
  by_cases h : c <;> simp [h]

/-- `pipelineFilters` is the single filter by `survives`. -/
theorem pipelineFilters_eq_filter (today : Nat) (q : Query) (evs : List Event) :
    pipelineFilters today q evs = evs.filter (survives today q) := by
  unfold pipelineFilters filter_upcoming_events
  simp only [filter_by_date_range_eq_filter, filter_by_age_eq_filter,
    filter_by_days_eq_filter, filter_by_time_of_day_eq_filter,
    filter_by_venue_type_eq_filter, filter_by_event_type_eq_filter]
  simp only [ite_filter]
  simp only [List.filter_filter]
  refine List.filter_congr (fun a _ => ?_)
  unfold survives
  generalize keepUpcoming today a = b1
  generalize (if q.date_range ≠ "all" then keepDateRangeP today q.date_range a else true) = b2
  generalize (if q.kids_ages ≠ "" then keepAgeP q.kids_ages a else true) = b3
  generalize (if q.days ≠ [] then keepDaysP q.days a else true) = b4
  generalize (if q.time_of_day ≠ [] then keepTimeP q.time_of_day a else true) = b5
  generalize (if q.venue_type ≠ "all" then keepVenueP q.venue_type a else true) = b6
  generalize (if q.event_type ≠ "all" then keepTypeP q.event_type a else true) = b7
  revert b1 b2 b3 b4 b5 b6 b7
  decide

/-! ### Supporting lemmas: annotation touches only the derived fields -/

theorem survives_annotate (today : Nat) (q : Query) (e : Event) :
    survives today q (annotate e) = survives today q e := rfl

theorem annotate_annotate (e : Event) : annotate (annotate e) = annotate e := rfl

theorem sortKeyOpt_annotate (e : Event) : sortKeyOpt (annotate e) = sortKeyOpt e := rfl

theorem cityMatches_annotate (e : Event) (c : String) :
    cityMatches (annotate e) c = cityMatches e c := rfl

/-- The in-place mutation image of any record is either the record
itself or its annotation. -/
theorem mutIfSurvives_cases (today : Nat) (q : Query) (e : Event) :
    mutIfSurvives today q e = e ∨ mutIfSurvives today q e = annotate e := by
  unfold mutIfSurvives; split
  · exact Or.inr rfl
  · exact Or.inl rfl

theorem annotate_mutLike {g : Event → Event}
    (hg : ∀ e, g e = e ∨ g e = annotate e) (e : Event) :
    annotate (g e) = annotate e := by
  rcases hg e with h | h <;> rw [h]
  exact annotate_annotate e

theorem survives_mutLike {g : Event → Event}
    (hg : ∀ e, g e = e ∨ g e = annotate e) (today : Nat) (q : Query) (e : Event) :
    survives today q (g e) = survives today q e := by
  rcases hg e with h | h <;> rw [h]
  exact survives_annotate today q e

theorem cityMatches_mutLike {g : Event → Event}
    (hg : ∀ e, g e = e ∨ g e = annotate e) (e : Event) (c : String) :
    cityMatches (g e) c = cityMatches e c := by
  rcases hg e with h | h <;> rw [h]
  exact cityMatches_annotate e c

theorem filter_map_comm {p : Event → Bool} {f : Event → Event}
    (h : ∀ e, p (f e) = p e) (l : List Event) :
    (l.map f).filter p = (l.filter p).map f := by
  rw [List.filter_map f l]
  congr 1
  exact List.filter_congr (fun a _ => by simp [Function.comp, h a])

theorem map_annotate_map_mutLike {g : Event → Event}
    (hg : ∀ e, g e = e ∨ g e = annotate e) (l : List Event) :
    (l.map g).map annotate = l.map annotate := by
  rw [List.map_map]
  exact List.map_congr_left (fun e _ => annotate_mutLike hg e)

/-- The filtered-annotated-sorted tail of the pipeline gives the same
result on a collection whose records have been mutated in place by a
previous search. -/
theorem results_map_mutLike {g : Event → Event}
    (hg : ∀ e, g e = e ∨ g e = annotate e) (today : Nat) (q : Query) (l : List Event) :
    sort_by_date (add_duration_info (pipelineFilters today q (l.map g))) =
      sort_by_date (add_duration_info (pipelineFilters today q l)) := by
  rw [pipelineFilters_eq_filter, pipelineFilters_eq_filter,
    filter_map_comm (survives_mutLike hg today q)]
  unfold add_duration_info
  rw [map_annotate_map_mutLike hg]

theorem bookMut_cases (today : Nat) (q : Query) (c : String) (e : Event) :
    bookMut today q c e = e ∨ bookMut today q c e = annotate e := by
  unfold bookMut; split
  · exact Or.inr rfl
  · exact Or.inl rfl

/-- Under a single-city query, the post-search collections reassemble
into the original working set with every record replaced by its
mutate-in-place image. -/
theorem collect_after_city (today : Nat) (q : Query) (jc hob book : List Event)
    (cityKey tagName : String)
    (h1 : q.city = cityKey)
    (h2 : (cityKey = "jersey_city" ∧ tagName = "jersey city") ∨
      (cityKey = "hoboken" ∧ tagName = "hoboken")) :
    collect q (jcAfterSearch today q jc) (hobAfterSearch today q hob)
        (bookAfterSearch today q book) =
      (collect q jc hob book).map (mutIfSurvives today q) := by
  rcases h2 with ⟨h2, h3⟩ | ⟨h2, h3⟩
  · have hc : q.city = "jersey_city" := h1.trans h2
    have hne : q.city ≠ "hoboken" := by rw [hc]; decide
    have hjc : jcAfterSearch today q jc = jc.map (mutIfSurvives today q) := by
      unfold jcAfterSearch; rw [if_pos hc]
    have hhob : hobAfterSearch today q hob = hob := by
      unfold hobAfterSearch; rw [if_neg hne]
    have hbook : bookAfterSearch today q book = book.map (bookMut today q "jersey city") := by
      unfold bookAfterSearch; rw [if_pos hc]
    have hcol : collect q jc hob book =
        jc ++ book.filter (fun e => cityMatches e "jersey city") := by
      unfold collect; rw [if_pos hc]
    have hcol2 : collect q (jc.map (mutIfSurvives today q)) hob
        (book.map (bookMut today q "jersey city")) =
        jc.map (mutIfSurvives today q) ++
          (book.map (bookMut today q "jersey city")).filter
            (fun e => cityMatches e "jersey city") := by
      unfold collect; rw [if_pos hc]
    rw [hjc, hhob, hbook, hcol2, hcol, List.map_append]
    congr 1
    rw [filter_map_comm (fun e => cityMatches_mutLike (bookMut_cases today q _) e _)]
    refine List.map_congr_left (fun e he => ?_)
    have hP : cityMatches e "jersey city" = true := (List.mem_filter.mp he).2
    simp only [bookMut, mutIfSurvives, hP, Bool.true_and]
  · have hc : q.city = "hoboken" := h1.trans h2
    have hne : q.city ≠ "jersey_city" := by rw [hc]; decide
    have hjc : jcAfterSearch today q jc = jc := by
      unfold jcAfterSearch; rw [if_neg hne]
    have hhob : hobAfterSearch today q hob = hob.map (mutIfSurvives today q) := by
      unfold hobAfterSearch; rw [if_pos hc]
    have hbook : bookAfterSearch today q book = book.map (bookMut today q "hoboken") := by
      unfold bookAfterSearch; rw [if_neg hne, if_pos hc]
    have hcol : collect q jc hob book =
        hob ++ book.filter (fun e => cityMatches e "hoboken") := by
      unfold collect; rw [if_neg hne, if_pos hc]
    have hcol2 : collect q jc (hob.map (mutIfSurvives today q))
        (book.map (bookMut today q "hoboken")) =
        hob.map (mutIfSurvives today q) ++
          (book.map (bookMut today q "hoboken")).filter
            (fun e => cityMatches e "hoboken") := by
      unfold collect; rw [if_neg hne, if_pos hc]
    rw [hjc, hhob, hbook, hcol2, hcol, List.map_append]
    congr 1
    rw [filter_map_comm (fun e => cityMatches_mutLike (bookMut_cases today q _) e _)]
    refine List.map_congr_left (fun e he => ?_)
    have hP : cityMatches e "hoboken" = true := (List.mem_filter.mp he).2
    simp only [bookMut, mutIfSurvives, hP, Bool.true_and]

theorem results_append_mutLike {g : Event → Event}
    (hg : ∀ e, g e = e ∨ g e = annotate e) (today : Nat) (q : Query)
    (A B C : List Event) :
    sort_by_date (add_duration_info (pipelineFilters today q (A ++ B ++ C.map g))) =
      sort_by_date (add_duration_info (pipelineFilters today q (A ++ B ++ C))) := by
  rw [pipelineFilters_eq_filter, pipelineFilters_eq_filter]
  simp only [List.filter_append]
  rw [filter_map_comm (survives_mutLike hg today q)]
  unfold add_duration_info
  simp only [List.map_append]
  rw [map_annotate_map_mutLike hg]

/-! ### Supporting lemmas: stability and order of the Sorter -/

theorem keyLe_of_key_eq {a b : Event} (h : sortKeyOpt a = sortKeyOpt b) :
    keyLe a b = true := by
  unfold keyLe
  rw [h]
  cases sortKeyOpt b <;> simp

theorem filter_key_orderedInsert (k : Option Nat) (a : Event) (l : List Event) :
    (List.orderedInsert keyRel a l).filter (fun e => decide (sortKeyOpt e = k)) =
      if sortKeyOpt a = k then
        a :: l.filter (fun e => decide (sortKeyOpt e = k))
      else l.filter (fun e => decide (sortKeyOpt e = k)) := by
  rw [List.orderedInsert_eq_take_drop, List.filter_append]
  have hsplit : l.filter (fun e => decide (sortKeyOpt e = k)) =
      (l.takeWhile fun b => decide ¬(keyRel a b)).filter (fun e => decide (sortKeyOpt e = k)) ++
        (l.dropWhile fun b => decide ¬(keyRel a b)).filter (fun e => decide (sortKeyOpt e = k)) := by
    rw [← List.filter_append, List.takeWhile_append_dropWhile]
  by_cases hk : sortKeyOpt a = k
  · have htake : (l.takeWhile fun b => decide ¬(keyRel a b)).filter
        (fun e => decide (sortKeyOpt e = k)) = [] := by
      rw [List.filter_eq_nil_iff]
      intro x hx
      have hnr : ¬ keyRel a x := by
        have := List.mem_takeWhile_imp hx
        simpa using this
      simp only [decide_eq_true_eq]
      intro hxk
      exact hnr (keyLe_of_key_eq (hk.trans hxk.symm))
    rw [if_pos hk, htake, hsplit, htake]
    simp [hk]
  · rw [if_neg hk, hsplit]
    congr 1
    simp [hk]

theorem sort_by_date_stable (l : List Event) (k : Option Nat) :
    (sort_by_date l).filter (fun e => decide (sortKeyOpt e = k)) =
      l.filter (fun e => decide (sortKeyOpt e = k)) := by
  induction l with
  | nil => rfl
  | cons a t ih =>
    have hstep : sort_by_date (a :: t) =
        List.orderedInsert keyRel a (sort_by_date t) := rfl
    rw [hstep, filter_key_orderedInsert]
    by_cases hk : sortKeyOpt a = k
    · rw [if_pos hk, ih, List.filter_cons]
      simp [hk]
    · rw [if_neg hk, ih, List.filter_cons]
      simp [hk]

theorem sorted_unparsable_last (L : List Event) (h : List.Sorted keyRel L) :
    List.Pairwise (fun a b => ¬(sortKeyOpt a = none ∧ sortKeyOpt b ≠ none)) L := by
  refine h.imp ?_
  intro a b hab hc
  obtain ⟨ha, hb⟩ := hc
  cases hsb : sortKeyOpt b with
  | none => exact hb hsb
  | some y =>
    unfold keyRel keyLe at hab
    rw [ha, hsb] at hab
    exact Bool.false_ne_true hab

/-- C7 (amended).  The Sorter returns a permutation of its input in
ascending key order, where the key parses the date defaulted to
`9999-12-31` and the start time defaulted to `00:00:00`; records whose
defaulted combination fails to parse (`sortKeyOpt = none`, the
`datetime.max` fallback) come after every record whose combination
parses; and the sort is stable: for every key value, the records with
that key appear in their original input order.  (The original claim's
clause that a *missing* date sorts after every parsable record is false
— the default `9999-12-31` parses — see the counterexample.) -/
theorem C7_sorter_amended :
    ∀ l : List Event,
      (sort_by_date l).Perm l ∧
      List.Sorted keyRel (sort_by_date l) ∧
      (∀ k : Option Nat,
        (sort_by_date l).filter (fun e => decide (sortKeyOpt e = k)) =
          l.filter (fun e => decide (sortKeyOpt e = k))) ∧
      List.Pairwise (fun a b => ¬(sortKeyOpt a = none ∧ sortKeyOpt b ≠ none))
        (sort_by_date l) := by
  intro l
  exact ⟨List.perm_insertionSort keyRel l, List.sorted_insertionSort keyRel l,
    fun k => sort_by_date_stable l k,
    sorted_unparsable_last _ (List.sorted_insertionSort keyRel l)⟩

/-- C7 counterexample.  A record with a *missing* date (which defaults
to `9999-12-31 00:00:00` and parses) sorts *before* the record dated
`9999-12-31 10:00:00`, whose key parses — so a missing-date record is
not treated as the maximal possible date-time, refuting the claim as
stated. -/
theorem C7_counterexample :
    sort_by_date [emptyEvent, lateDateEvent] = [emptyEvent, lateDateEvent] ∧
    emptyEvent.date = none ∧
    (sortKeyOpt lateDateEvent).isSome = true ∧
    (sortKeyOpt emptyEvent).isSome = true := by decide

/-- C5.  The temporal-validity stage keeps a record iff its date parses
to a day at or after today, or fails to parse at all; and a record whose
date fails to parse survives the date-window stage for every window
name. -/
theorem C5_temporal_fail_open :
    (∀ (today : Nat) (evs : List Event) (e : Event),
      e ∈ filter_upcoming_events today evs ↔
        e ∈ evs ∧ (parseDate (e.date.getD "") = none ∨
          ∃ d, parseDate (e.date.getD "") = some d ∧ today ≤ d)) ∧
    (∀ (today : Nat) (dr : String) (evs : List Event) (e : Event),
      parseDate (e.date.getD "") = none → e ∈ evs →
      e ∈ filter_by_date_range today evs dr) := by
  constructor
  · intro today evs e
    unfold filter_upcoming_events
    rw [List.mem_filter]
    unfold keepUpcoming
    cases h : parseDate (e.date.getD "") with
    | none => simp [h]
    | some d => simp [h]
  · intro today dr evs e h hmem
    unfold filter_by_date_range
    cases hed : endDateOf today dr with
    | none => exact hmem
    | some ed =>
      rw [List.mem_filter]
      refine ⟨hmem, ?_⟩
      unfold keepInRange
      rw [h]

/-- C5 witness at a concrete input: a record with no date survives both
temporal stages. -/
theorem C5_witness :
    emptyEvent ∈ filter_by_date_range 0 [emptyEvent] "week" ∧
    (emptyEvent ∈ filter_upcoming_events 0 [emptyEvent] ↔
      emptyEvent ∈ [emptyEvent] ∧ (parseDate (emptyEvent.date.getD "") = none ∨
        ∃ d, parseDate (emptyEvent.date.getD "") = some d ∧ 0 ≤ d)) :=
  ⟨C5_temporal_fail_open.2 0 "week" [emptyEvent] emptyEvent (by decide) (by decide),
    C5_temporal_fail_open.1 0 [emptyEvent] emptyEvent⟩

/-- C8.  Temporal Annotator postcondition.  First part: with a present,
parsable `end_time` and a parsable (defaulted) `start_time`, the
annotator writes the exact hour difference, the 6-hour all-day flag, and
the 12-hour rendering of the end time.  Second part: with an absent (or
empty) `end_time`, or either time failing to parse, it writes the
defaults `(0, false, null)`; the function is total, so it never raises. -/
theorem C8_annotator :
    (∀ (e : Event) (t1 t2 : Nat × Nat × Nat) (et : String),
      e.end_time = some et →
      parseTimeHMS et = some t2 →
      parseTimeHMS (e.start_time.getD "00:00:00") = some t1 →
      (annotate e).duration_hours =
          some (((hmsSeconds t2 : ℚ) - (hmsSeconds t1 : ℚ)) / 3600) ∧
        (annotate e).is_all_day =
          some (decide ((((hmsSeconds t2 : ℚ) - (hmsSeconds t1 : ℚ)) / 3600) ≥ 6)) ∧
        (annotate e).formatted_end_time = some (some (format12 t2.1 t2.2.1))) ∧
    (∀ e : Event,
      e.end_time.getD "" = "" ∨ parseTimeHMS (e.end_time.getD "") = none ∨
        parseTimeHMS (e.start_time.getD "00:00:00") = none →
      (annotate e).duration_hours = some 0 ∧ (annotate e).is_all_day = some false ∧
        (annotate e).formatted_end_time = some (none : Option String)) := by
  constructor
  · intro e t1 t2 et he ht2 ht1
    have hgd : e.end_time.getD "" = et := by rw [he]; rfl
    have hne2 : et ≠ "" := by
      intro hcon
      rw [hcon] at ht2
      exact Option.noConfusion ht2
    simp [annotate, setDerived, durTriple, hgd, hne2, ht1, ht2]
  · intro e h
    rcases h with h | h | h
    · simp [annotate, setDerived, durTriple, h]
    · by_cases hne : e.end_time.getD "" = ""
      · simp [annotate, setDerived, durTriple, hne]
      · cases hst : parseTimeHMS (e.start_time.getD "00:00:00") <;>
          simp [annotate, setDerived, durTriple, hne, h, hst]
    · by_cases hne : e.end_time.getD "" = ""
      · simp [annotate, setDerived, durTriple, hne]
      · cases het : parseTimeHMS (e.end_time.getD "") <;>
          simp [annotate, setDerived, durTriple, hne, h, het]

/-- C8 witness: the concrete scenario `09:30:00`-`10:15:00` yields
0.75 hours, not all-day, formatted end time "10:15 AM"; and a record
with no `end_time` gets the defaults. -/
theorem C8_witness :
    (annotate morningSlotEvent).duration_hours = some ((3 : ℚ) / 4) ∧
    (annotate morningSlotEvent).is_all_day = some false ∧
    (annotate morningSlotEvent).formatted_end_time = some (some "10:15 AM") ∧
    (annotate emptyEvent).duration_hours = some 0 := by
  obtain ⟨h1, h2, h3⟩ :=
    C8_annotator.1 morningSlotEvent (9, 30, 0) (10, 15, 0) "10:15:00" rfl
      (by decide) (by decide)
  have h4 := (C8_annotator.2 emptyEvent (Or.inl rfl)).1
  refine ⟨?_, ?_, ?_, h4⟩
  · rw [h1]; norm_num [hmsSeconds]
  · rw [h2]; norm_num [hmsSeconds]
  · rw [h3]; decide

/-- C10.  Pipeline idempotence: a second search over the collections as
left by a completed first search with the same query returns the same
result list (and the same count).  The in-place annotation of the first
run only rewrites the derived fields of surviving records, which no
filter predicate and no sort key reads, and rewriting them again is
idempotent. -/
theorem C10_idempotent :
    ∀ (today : Nat) (q : Query) (jc hob book : List Event),
      search_results today q (jcAfterSearch today q jc) (hobAfterSearch today q hob)
          (bookAfterSearch today q book) = search_results today q jc hob book ∧
      (search_results today q (jcAfterSearch today q jc) (hobAfterSearch today q hob)
          (bookAfterSearch today q book)).length =
        (search_results today q jc hob book).length := by
  intro today q jc hob book
  have main : search_results today q (jcAfterSearch today q jc)
      (hobAfterSearch today q hob) (bookAfterSearch today q book) =
      search_results today q jc hob book := by
    by_cases c1 : q.city = "jersey_city"
    · unfold search_results
      rw [collect_after_city today q jc hob book "jersey_city" "jersey city" c1
        (Or.inl ⟨rfl, rfl⟩)]
      exact results_map_mutLike (mutIfSurvives_cases today q) today q _
    · by_cases c2 : q.city = "hoboken"
      · unfold search_results
        rw [collect_after_city today q jc hob book "hoboken" "hoboken" c2
          (Or.inr ⟨rfl, rfl⟩)]
        exact results_map_mutLike (mutIfSurvives_cases today q) today q _
      · have hjc : jcAfterSearch today q jc = jc := by
          unfold jcAfterSearch; rw [if_neg c1]
        have hhob : hobAfterSearch today q hob = hob := by
          unfold hobAfterSearch; rw [if_neg c2]
        have hbook : bookAfterSearch today q book =
            book.map (mutIfSurvives today q) := by
          unfold bookAfterSearch; rw [if_neg c1, if_neg c2]
        have hcol2 : collect q jc hob (book.map (mutIfSurvives today q)) =
            jc.map (fun e => setCity e "Jersey City") ++
              hob.map (fun e => setCity e "Hoboken") ++
              book.map (mutIfSurvives today q) := by
          unfold collect; rw [if_neg c1, if_neg c2]
        have hcol : collect q jc hob book =
            jc.map (fun e => setCity e "Jersey City") ++
              hob.map (fun e => setCity e "Hoboken") ++ book := by
          unfold collect; rw [if_neg c1, if_neg c2]
        unfold search_results
        rw [hjc, hhob, hbook, hcol2, hcol]
        exact results_append_mutLike (mutIfSurvives_cases today q) today q _ _ _
  exact ⟨main, by rw [main]⟩

/-- C6 counterexample.  A `jersey_city` search over a snapshot holding
one surviving record rewrites that record in place in the shared
`jersey_city_events` collection: after the search the stored record
carries the derived keys, so it is no longer value-equal to what it was
before the query. -/
theorem C6_counterexample :
    jcAfterSearch 0 jcQuery [emptyEvent] = [annotate emptyEvent] ∧
    annotate emptyEvent ≠ emptyEvent := by decide

/-- C6 (amended).  For a `both` query the two library collections are
copied record-by-record before tagging, so they are never mutated; but
the Temporal Annotator writes its derived fields into the shared dict
objects that reached it, so the bookstore collection (for every city
selection), and the native library collection of a single-city query,
hold annotated records after the search. -/
theorem C6_mutation_amended :
    ∀ (today : Nat) (q : Query) (jc hob book : List Event),
      q.city = "both" →
      jcAfterSearch today q jc = jc ∧
      hobAfterSearch today q hob = hob ∧
      bookAfterSearch today q book = book.map (mutIfSurvives today q) := by
  intro today q jc hob book h
  have c1 : q.city ≠ "jersey_city" := by rw [h]; decide
  have c2 : q.city ≠ "hoboken" := by rw [h]; decide
  refine ⟨?_, ?_, ?_⟩
  · unfold jcAfterSearch; rw [if_neg c1]
  · unfold hobAfterSearch; rw [if_neg c2]
  · unfold bookAfterSearch; rw [if_neg c1, if_neg c2]

/-- C6 witness: the amended statement at a concrete input. -/
theorem C6_witness :
    jcAfterSearch 0 bothQuery [emptyEvent] = [emptyEvent] ∧
    hobAfterSearch 0 bothQuery [emptyEvent] = [emptyEvent] ∧
    bookAfterSearch 0 bothQuery [emptyEvent] =
      [emptyEvent].map (mutIfSurvives 0 bothQuery) :=
  C6_mutation_amended 0 bothQuery [emptyEvent] [emptyEvent] [emptyEvent] rfl

/-- C9.  Date-window monotonicity at the level of whole searches: with
every other query parameter fixed, every event in the `week` result list
is also in the `all` result list. -/
theorem C9_week_subset_all :
    ∀ (today : Nat) (q : Query) (jc hob book : List Event) (e : Event),
      e ∈ search_results today (setRange q "week") jc hob book →
      e ∈ search_results today (setRange q "all") jc hob book := by
  intro today q jc hob book e h
  have hcolW : collect (setRange q "week") jc hob book = collect q jc hob book := rfl
  have hcolA : collect (setRange q "all") jc hob book = collect q jc hob book := rfl
  unfold search_results sort_by_date add_duration_info at h ⊢
  rw [hcolW] at h
  rw [hcolA]
  rw [List.mem_insertionSort] at h ⊢
  rw [List.mem_map] at h ⊢
  obtain ⟨x, hx, rfl⟩ := h
  refine ⟨x, ?_, rfl⟩
  rw [pipelineFilters_eq_filter] at hx ⊢
  rw [List.mem_filter] at hx ⊢
  obtain ⟨hmem, hsur⟩ := hx
  refine ⟨hmem, ?_⟩
  simp only [survives, setRange] at hsur ⊢
  simp only [Bool.and_eq_true] at hsur ⊢
  obtain ⟨⟨⟨⟨⟨⟨h1, _⟩, h3⟩, h4⟩, h5⟩, h6⟩, h7⟩ := hsur
  refine ⟨⟨⟨⟨⟨⟨h1, ?_⟩, h3⟩, h4⟩, h5⟩, h6⟩, h7⟩
  rw [if_neg (show ¬(("all" : String) ≠ "all") by decide)]

/-- C1 counterexample.  An event whose description yields the interval
[3,5] but whose audience contains "all ages" is kept for the caller
interval [0,2] although the overlap test fails: the "all ages" check on
the audience runs before the description extraction, so the claimed
biconditional (and the claim that the audience is never consulted when a
description interval exists) fails on this record. -/
theorem C1_counterexample :
    extract_age_range_from_text (allAgesDescEvent.description.getD "") = some (3, 5) ∧
    check_age_overlap 0 2 3 5 = false ∧
    parse_age_input "0-2" = some (0, 2) ∧
    filter_by_age [allAgesDescEvent] "0-2" = [allAgesDescEvent] := by decide

/-- C1 (amended).  For every event whose audience does *not* contain
"all ages" and whose description yields an interval [em,ex], and every
parsed caller interval [a,b] with a ≤ b, the age stage keeps the event
iff `not (b < em or a > ex)`; the decision equals the overlap test, so
nothing else of the audience field is consulted. -/
theorem C1_description_overlap_amended :
    ∀ (s : String) (a b : Int) (em ex : Nat) (e : Event) (evs : List Event),
      a ≤ b →
      containsSub "all ages".data (lowerChars (e.audience.getD "")) = false →
      extract_age_range_from_text (e.description.getD "") = some (em, ex) →
      parse_age_input s = some (a, b) →
      keepAge a b e = check_age_overlap a b em ex ∧
      (e ∈ filter_by_age evs s ↔ e ∈ evs ∧ check_age_overlap a b em ex = true) := by
  intro s a b em ex e evs hab hall hex hs
  have hk : keepAge a b e = check_age_overlap a b em ex := by
    simp [keepAge, hall, hex]
  refine ⟨hk, ?_⟩
  unfold filter_by_age
  rw [hs, List.mem_filter, hk]

/-- C1 witness: the amended statement at the boundary-touching and
adjacent examples of the claim. -/
theorem C1_witness :
    (keepAge 3 5 agesDescEvent = check_age_overlap 3 5 3 5 ∧
      (agesDescEvent ∈ filter_by_age [agesDescEvent] "3-5" ↔
        agesDescEvent ∈ [agesDescEvent] ∧ check_age_overlap 3 5 3 5 = true)) ∧
    check_age_overlap 3 5 3 5 = true :=
  ⟨C1_description_overlap_amended "3-5" 3 5 3 5 agesDescEvent [agesDescEvent]
      (by decide) (by decide) (by decide) (by decide),
    by decide⟩

/-- C2 counterexample.  An event whose audience contains "baby" is kept
for the caller interval [5,8] even though [5,8] does not overlap the
heuristic interval [0,2]: Python's operator precedence binds the age
check only to the "infant" alternative, so "baby" keeps
unconditionally. -/
theorem C2_counterexample :
    parse_age_input "5-8" = some (5, 8) ∧
    check_age_overlap 5 8 0 2 = false ∧
    containsSub "baby".data (lowerChars (babyEvent.audience.getD "")) = true ∧
    extract_age_range_from_text (babyEvent.description.getD "") = none ∧
    dashSearch (lowerChars (babyEvent.audience.getD "")) = none ∧
    filter_by_age [babyEvent] "5-8" = [babyEvent] := by decide

/-- C2 (amended).  In the keyword fallback, when neither the toddler
branch nor the preschool keyword applies, an event is kept iff its
audience contains "baby" (unconditionally, for every caller interval) or
contains "infant" and the caller interval satisfies `b ≥ 0 ∧ a ≤ 2`
(the overlap with [0,2]). -/
theorem C2_baby_precedence_amended :
    ∀ (s : String) (a b : Int) (e : Event) (evs : List Event),
      parse_age_input s = some (a, b) →
      containsSub "all ages".data (lowerChars (e.audience.getD "")) = false →
      extract_age_range_from_text (e.description.getD "") = none →
      dashSearch (lowerChars (e.audience.getD "")) = none →
      (containsSub "toddler".data (lowerChars (e.audience.getD "")) &&
        decide (b ≥ 1) && decide (a ≤ 3)) = false →
      containsSub "preschool".data (lowerChars (e.audience.getD "")) = false →
      keepAge a b e =
        (containsSub "baby".data (lowerChars (e.audience.getD "")) ||
          (containsSub "infant".data (lowerChars (e.audience.getD "")) &&
            decide (b ≥ 0) && decide (a ≤ 2))) ∧
      (e ∈ filter_by_age evs s ↔ e ∈ evs ∧ keepAge a b e = true) := by
  intro s a b e evs hs hall hex hdash htod hpre
  constructor
  · cases hbi : (containsSub "baby".data (lowerChars (e.audience.getD "")) ||
        (containsSub "infant".data (lowerChars (e.audience.getD "")) &&
          decide (b ≥ 0) && decide (a ≤ 2))) <;>
      simp [keepAge, hall, hex, hdash, htod, hpre, hbi]
  · unfold filter_by_age
    rw [hs, List.mem_filter]

/-- C2 witness: an "infant" audience with the non-overlapping caller
interval [5,8] is dropped, matching the amended rule. -/
theorem C2_witness :
    keepAge 5 8 { audience := some "infant" } =
      (containsSub "baby".data (lowerChars
          (({ audience := some "infant" } : Event).audience.getD "")) ||
        (containsSub "infant".data (lowerChars
            (({ audience := some "infant" } : Event).audience.getD "")) &&
          decide ((8 : Int) ≥ 0) && decide ((5 : Int) ≤ 2))) :=
  (C2_baby_precedence_amended "5-8" 5 8 { audience := some "infant" } []
    (by decide) (by decide) (by decide) (by decide) (by decide) (by decide)).1

/-- C3 counterexample.  The audience "toddler 6-11" carries the numeric
pattern 6-11; for the caller interval [0,2] the overlap test fails, yet
the record is kept: the code falls through to the keyword heuristics,
whose toddler branch matches.  This refutes the claim that a failed
audience-interval overlap drops the record and that the keyword
heuristics run only when no numeric pattern was found. -/
theorem C3_counterexample :
    extract_age_range_from_text (toddlerDashEvent.description.getD "") = none ∧
    dashSearch (lowerChars (toddlerDashEvent.audience.getD "")) = some (6, 11) ∧
    check_age_overlap 0 2 6 11 = false ∧
    parse_age_input "0-2" = some (0, 2) ∧
    filter_by_age [toddlerDashEvent] "0-2" = [toddlerDashEvent] := by decide

/-- C3 (amended).  When the audience carries a numeric dash pattern
[dm,dx] (no "all ages", no description interval), the record is kept iff
the caller interval overlaps [dm,dx] *or* some keyword heuristic branch
fires: the keyword fallback is consulted whenever the numeric overlap
fails, not only when no numeric pattern was found. -/
theorem C3_audience_dash_amended :
    ∀ (s : String) (a b : Int) (dm dx : Nat) (e : Event) (evs : List Event),
      parse_age_input s = some (a, b) →
      containsSub "all ages".data (lowerChars (e.audience.getD "")) = false →
      extract_age_range_from_text (e.description.getD "") = none →
      dashSearch (lowerChars (e.audience.getD "")) = some (dm, dx) →
      keepAge a b e =
        (check_age_overlap a b dm dx ||
          ((containsSub "toddler".data (lowerChars (e.audience.getD "")) &&
            decide (b ≥ 1) && decide (a ≤ 3)) ||
          ((containsSub "baby".data (lowerChars (e.audience.getD "")) ||
            (containsSub "infant".data (lowerChars (e.audience.getD "")) &&
              decide (b ≥ 0) && decide (a ≤ 2))) ||
          (containsSub "preschool".data (lowerChars (e.audience.getD "")) &&
            decide (b ≥ 3) && decide (a ≤ 5))))) ∧
      (e ∈ filter_by_age evs s ↔ e ∈ evs ∧ keepAge a b e = true) := by
  intro s a b dm dx e evs hs hall hex hdash
  constructor
  · simp only [keepAge, hall, hex, hdash]
    simp only [Bool.false_eq_true, if_false]
    generalize check_age_overlap a b dm dx = ov
    generalize (containsSub "toddler".data (lowerChars (e.audience.getD "")) &&
      decide (b ≥ 1) && decide (a ≤ 3)) = t
    generalize (containsSub "baby".data (lowerChars (e.audience.getD "")) ||
      (containsSub "infant".data (lowerChars (e.audience.getD "")) &&
        decide (b ≥ 0) && decide (a ≤ 2))) = bi
    generalize (containsSub "preschool".data (lowerChars (e.audience.getD "")) &&
      decide (b ≥ 3) && decide (a ≤ 5)) = p
    revert ov t bi p
    decide
  · unfold filter_by_age
    rw [hs, List.mem_filter]

/-- C3 witness: the amended rule at the counterexample input. -/
theorem C3_witness :
    keepAge 0 2 toddlerDashEvent =
      (check_age_overlap 0 2 6 11 ||
        ((containsSub "toddler".data (lowerChars (toddlerDashEvent.audience.getD "")) &&
          decide ((2 : Int) ≥ 1) && decide ((0 : Int) ≤ 3)) ||
        ((containsSub "baby".data (lowerChars (toddlerDashEvent.audience.getD "")) ||
          (containsSub "infant".data (lowerChars (toddlerDashEvent.audience.getD "")) &&
            decide ((2 : Int) ≥ 0) && decide ((0 : Int) ≤ 2))) ||
        (containsSub "preschool".data (lowerChars (toddlerDashEvent.audience.getD "")) &&
          decide ((2 : Int) ≥ 3) && decide ((0 : Int) ≤ 5))))) :=
  (C3_audience_dash_amended "0-2" 0 2 6 11 toddlerDashEvent []
    (by decide) (by decide) (by decide) (by decide)).1

/-- C4.  Fail-closed law of the age stage: a record with no age signal
at all is dropped by `filter_by_age` for every parsable caller
interval; an unparsable (malformed) age input makes `filter_by_age` the
identity (no filtering); and the `search` guard skips the stage entirely
when no age string was supplied, so the record survives the age stage. -/
theorem C4_fail_closed :
    ∀ e : Event, noAgeSignal e = true →
      (∀ (s : String) (a b : Int) (evs : List Event),
        parse_age_input s = some (a, b) → e ∉ filter_by_age evs s) ∧
      (∀ (s : String) (evs : List Event),
        parse_age_input s = none → filter_by_age evs s = evs) ∧
      (∀ (s : String) (evs : List Event), s = "" →
        (if s ≠ "" then filter_by_age evs s else evs) = evs) := by
  intro e h
  simp only [noAgeSignal, Bool.and_eq_true, Bool.not_eq_true',
    Option.isNone_iff_eq_none] at h
  obtain ⟨⟨⟨⟨⟨⟨h1, h2⟩, h3⟩, h4⟩, h5⟩, h6⟩, h7⟩ := h
  have hk : ∀ a b : Int, keepAge a b e = false := by
    intro a b
    simp [keepAge, h1, h2, h3, h4, h5, h6, h7]
  refine ⟨?_, ?_, ?_⟩
  · intro s a b evs hs hmem
    unfold filter_by_age at hmem
    rw [hs, List.mem_filter, hk a b] at hmem
    exact Bool.false_ne_true hmem.2
  · intro s evs hs
    unfold filter_by_age
    rw [hs]
  · intro s evs hs
    rw [if_neg (by simp [hs])]

/-- C4 witness: a record whose audience is "adults welcome" is dropped
under the parsable filter "0-2", untouched under the malformed filter
"abc", and untouched when no filter is supplied. -/
theorem C4_witness :
    adultsEvent ∉ filter_by_age [adultsEvent] "0-2" ∧
    filter_by_age [adultsEvent] "abc" = [adultsEvent] ∧
    (if ("" : String) ≠ "" then filter_by_age [adultsEvent] "" else [adultsEvent]) =
      [adultsEvent] :=
  ⟨(C4_fail_closed adultsEvent (by decide)).1 "0-2" 0 2 [adultsEvent] (by decide),
    (C4_fail_closed adultsEvent (by decide)).2.1 "abc" [adultsEvent] (by decide),
    (C4_fail_closed adultsEvent (by decide)).2.2 "" [adultsEvent] rfl⟩

/-- C9 witness: a fail-open record is in the `week` result and, by
monotonicity, in the `all` result. -/
theorem C9_witness :
    annotate emptyEvent ∈
      search_results 0 (setRange jcQuery "week") [emptyEvent] [] [] ∧
    annotate emptyEvent ∈
      search_results 0 (setRange jcQuery "all") [emptyEvent] [] [] :=
  ⟨by decide,
    C9_week_subset_all 0 jcQuery [emptyEvent] [] [] (annotate emptyEvent) (by decide)⟩
